import Mathlib

/-!
Verification of the UF23 Galactic magnetic-field model repository
(`UF23Field` field evaluator and `ParameterCovariance` covariance engine).

The covariance layer (`ParameterCovariance.cc`) works on plain numeric
tables and is embedded over `ℚ`; the field evaluator (`UF23Field.cc`)
uses transcendental functions and is embedded over `ℝ`.  C++ exceptions
are modelled by `Except String`.
-/

namespace UF23

/-! ## Parameter identifiers (`UF23Field.h`, enum `EPar`) -/

/-- The 26 model parameters, `enum EPar` of `UF23Field.h` (without the
`eNpar` sentinel, whose value 26 is used literally below). -/
inductive EPar where
  | eDiskB1
  | eDiskB2
  | eDiskB3
  | eDiskH
  | eDiskPhase1
  | eDiskPhase2
  | eDiskPhase3
  | eDiskPitch
  | eDiskW
  | ePoloidalA
  | ePoloidalB
  | ePoloidalP
  | ePoloidalR
  | ePoloidalW
  | ePoloidalZ
  | ePoloidalXi
  | eSpurCenter
  | eSpurLength
  | eSpurWidth
  | eStriation
  | eToroidalBN
  | eToroidalBS
  | eToroidalR
  | eToroidalW
  | eToroidalZ
  | eTwistingTime
  deriving DecidableEq, Repr

/-- The eight model variants, `enum ModelType` of `UF23Field.h`. -/
inductive ModelType where
  | base
  | neCL
  | expX
  | spur
  | cre10
  | synCG
  | twistX
  | nebCor
  deriving DecidableEq, Repr

/-- Underlying integer value of the C++ `ModelType` enum; values outside
0..7 are representable in C++ by casting and hit the `default` branch of
the constructor switches. -/
def modelTypeOfNat : ℕ → Option ModelType
  | 0 => some .base
  | 1 => some .neCL
  | 2 => some .expX
  | 3 => some .spur
  | 4 => some .cre10
  | 5 => some .synCG
  | 6 => some .twistX
  | 7 => some .nebCor
  | _ + 8 => none

/-! ## Packed lower-triangular algebra (`ParameterCovariance.cc`, `utl::VfromL`) -/

/-- Packed lower-triangular index, the lambda `index` in `utl::VfromL`:
`(i * (i + 1)) / 2 + j`. -/
def pidx (i j : ℕ) : ℕ := i * (i + 1) / 2 + j

/-- Element access into the packed factor; out-of-range reads (which the
C++ code never performs on well-formed tables) default to 0. -/
def lget (L : List ℚ) (m : ℕ) : ℚ := L.getD m 0

/-- The inner `k`-loop of `utl::VfromL`:
`sum += L[index(i, k)] * L[index(j, k)]` for `k = 0 .. min i j`. -/
def vsum (L : List ℚ) (i j : ℕ) : ℚ :=
  ∑ k ∈ Finset.range (min i j + 1), lget L (pidx i k) * lget L (pidx j k)

/-- Write one matrix entry, `V[i][j] = v`. -/
def mset (M : ℕ → ℕ → ℚ) (i j : ℕ) (v : ℚ) : ℕ → ℕ → ℚ :=
  fun a b => if a = i ∧ b = j then v else M a b

/-- Body of the `j`-loop of `utl::VfromL`:
`V[i][j] = sum; if (i != j) V[j][i] = sum;`. -/
def vstep (L : List ℚ) (i : ℕ) (M : ℕ → ℕ → ℚ) (j : ℕ) : ℕ → ℕ → ℚ :=
  let s := vsum L i j
  let M1 := mset M i j s
  if i ≠ j then mset M1 j i s else M1

/-- The `j`-loop of `utl::VfromL` (`j = 0 .. i`). -/
def vrow (L : List ℚ) (M : ℕ → ℕ → ℚ) (i : ℕ) : ℕ → ℕ → ℚ :=
  (List.range (i + 1)).foldl (vstep L i) M

/-- The `i`-loop of `utl::VfromL` over the zero-initialised matrix
`V(n, vector<double>(n, 0.))`. -/
def vloop (L : List ℚ) (n : ℕ) : ℕ → ℕ → ℚ :=
  (List.range n).foldl (vrow L) (fun _ _ => 0)

/-- Matrix dimension recovered from the packed length,
`n = (sqrt(1 + 8 * L.size()) - 1) / 2` of `utl::VfromL` (the C++ `sqrt`
on these integers is exact; `Nat.sqrt` agrees on perfect squares). -/
def covDim (L : List ℚ) : ℕ := (Nat.sqrt (1 + 8 * L.length) - 1) / 2

/-- `utl::VfromL`: the dense covariance matrix `V = L * Lᵗ` computed by
the nested loops of `ParameterCovariance.cc`. -/
def VfromL (L : List ℚ) : ℕ → ℕ → ℚ := vloop L (covDim L)

/-! ## Hard-coded base-variant covariance table (`ParameterCovariance.cc`) -/

/-- Packed Cholesky factor `fL` of the `base` variant,
`ParameterCovariance.cc` lines 41-84 (210 entries, dimension 20). -/
def baseL : List ℚ := [
         1.39562e-01, -6.54085e-02,  1.96911e-01,  2.66170e-03,  7.39673e-02,
         1.31233e-01,  4.38627e+00, -5.73125e+00,  3.96343e-01,  4.48478e+00,
        -2.76039e-01, -8.39084e-01, -1.27464e+00,  2.03763e+00,  1.13046e+00,
         6.70593e-01,  1.35176e-01, -3.82145e-01,  1.77802e+00,  8.54741e-01,
         4.89239e-01,  5.32912e-02, -2.53639e-02, -8.78323e-05,  9.60822e-02,
         5.59280e-02,  1.99711e-02,  1.99797e-02,  8.09574e-02, -5.22914e-02,
         1.04681e-01,  4.01155e-02,  1.24853e-02, -1.57598e-02,  3.80346e-02,
         2.73338e-01, -6.09083e-02,  5.35443e-02, -1.02965e-01, -4.51922e-02,
         5.21954e-03,  5.73934e-03, -4.37831e-02, -2.50744e-01,  5.74450e-02,
         4.31914e-03,  1.09432e-02,  1.91788e-02,  3.00872e-02, -1.02555e-02,
        -8.85333e-03,  3.31359e-02, -7.99971e-03,  3.82178e-04,  1.63701e-01,
         2.51630e-02,  2.73540e-02,  7.49086e-02,  5.13695e-02,  1.03048e-02,
        -1.91850e-02,  4.37730e-02,  5.99822e-02,  2.77696e-03,  1.79149e-01,
         3.36912e-01, -5.43659e-02,  6.73414e-02, -2.52585e-01, -1.28087e-01,
         9.72050e-03,  4.55441e-02, -1.02084e-01, -5.26943e-01,  8.65182e-02,
         1.38017e-02,  2.19318e-01,  2.34028e-01,  7.30502e-03, -5.96256e-03,
        -2.77896e-03, -1.96214e-03, -1.29403e-03,  3.57595e-03, -1.57752e-03,
         1.16935e-02, -3.15322e-03,  5.50079e-03,  2.58879e-03,  1.28416e-02,
         2.51867e-02, -7.80606e-04, -6.08968e-04, -3.31634e-03, -1.00560e-03,
        -1.90903e-03,  5.22164e-04,  2.15408e-03,  3.40526e-03,  6.10413e-03,
         5.25004e-03, -3.04494e-03, -1.19098e-03, -3.57288e-02,  8.42481e-02,
        -4.72065e-03,  4.26466e-03, -4.48180e-03,  1.10559e-03, -3.83847e-03,
        -7.47686e-05,  3.33721e-03, -2.21504e-03, -1.66635e-03, -2.13078e-03,
        -1.00434e-03, -9.41848e-03, -2.72426e-02,  2.75402e-02,  3.91601e-02,
        -1.38041e-03,  1.49083e-03, -7.93107e-05,  1.25911e-04, -4.67348e-04,
        -9.21439e-04,  9.43735e-04, -2.52732e-03,  1.10854e-03,  2.83980e-04,
        -1.17611e-05, -2.39549e-03,  9.44256e-03,  2.97175e-03,  2.94127e-03,
         2.62734e-02,  3.00997e-03,  9.66463e-03, -2.27886e-03,  2.20331e-03,
         4.40898e-03,  2.65953e-04, -9.37628e-03, -2.45932e-02, -2.22911e-02,
        -2.93409e-02,  2.67895e-02,  9.63532e-03,  1.64344e-01, -3.39396e-01,
         8.55500e-02,  7.72724e-03,  9.92386e-02,  1.19129e-02, -6.56950e-03,
         9.83770e-03,  4.00257e-03,  9.26317e-04, -1.47288e-03,  5.54780e-03,
         1.98617e-02,  7.23500e-04,  1.89532e-03, -1.19248e-03,  1.27725e-02,
        -2.40595e-03, -2.43196e-03, -1.39745e-03,  1.28483e-03,  1.70057e-03,
         1.14572e-02,  8.04304e-03, -4.29058e-03,  1.63228e-03, -7.40672e-04,
         1.03992e-03,  1.84515e-03,  2.39947e-03,  7.22288e-03,  4.45706e-03,
        -1.99596e-03, -9.43494e-04,  6.35893e-03, -6.28036e-03, -3.77930e-03,
        -2.35889e-03,  2.89818e-03,  3.10305e-03,  8.84379e-03,  1.67461e-02,
        -1.03959e-02,  8.63190e-03,  5.41233e-03,  3.96455e-03,  1.28257e-03,
        -4.17208e-03,  1.65391e-03, -1.58028e-02,  3.41188e-03, -8.83596e-03,
        -1.81508e-03, -1.79711e-02, -6.11229e-03, -3.02850e-03, -1.75780e-03,
         3.12418e-03,  3.24976e-03,  5.01505e-03,  4.19117e-03,  9.90420e-03
  ]

/-- Parameter-index list `fIndices` of the `base` variant,
`ParameterCovariance.cc` lines 85-90 (note `eToroidalR` listed twice and
`eToroidalW` absent, as in the source). -/
def baseIndices : List EPar :=
  [.eDiskB1, .eDiskB2, .eDiskB3, .eDiskPhase1,
   .eDiskPhase2, .eDiskPhase3, .eDiskPitch,
   .eToroidalBN, .eToroidalBS, .eToroidalR,
   .eToroidalR, .eToroidalZ, .ePoloidalB, .ePoloidalP,
   .ePoloidalR, .ePoloidalW, .ePoloidalZ, .eDiskH,
   .eDiskW, .eStriation]

/-! ## The `ParameterCovariance` object -/

/-- State of a constructed `ParameterCovariance`
(fields of `ParameterCovariance.h`). -/
structure PCov where
  fModelType : ModelType
  fL : List ℚ
  fIndices : List EPar
  fV : ℕ → ℕ → ℚ

/-- `GetDimension()`: `fIndices.size()`. -/
def GetDimension (pc : PCov) : ℕ := pc.fIndices.length

/-- Modelled from the spec: the provided `ParameterCovariance.cc` retains
only the `base` variant's hard-coded table before the `default:` branch;
per the spec (§4.2) and the repository's own tests (`testCovariance.cxx`,
`testRandomDraw.cxx`) the repository's constructor has one hard-coded
`(fL, fIndices)` table per variant and throws `"unknown field model"`
only in the `default` branch.  The seven tables absent from the provided
sources are abstracted as the argument `tables`, pinned to the provided
`base` data by hypothesis where needed.  The constructor stores the
selected table and derives `fV = utl::VfromL(fL)`. -/
def mkParameterCovariance (tables : ModelType → List ℚ × List EPar) (v : ℕ) :
    Except String PCov :=
  match modelTypeOfNat v with
  | some mt => .ok ⟨mt, (tables mt).1, (tables mt).2, VfromL (tables mt).1⟩
  | none => .error "unknown field model"

/-- Modelled from the spec (§4.2 `GetRandomOffset`): the body of
`ParameterCovariance::GetRandomOffset` is not among the provided sources
(only its declaration in `ParameterCovariance.h` and its caller in
`testRandomDraw.cxx` are); the spec defines it as the packed
lower-triangular matrix-vector product
`delta[i] = sum_{k=0..i} L[packed(i,k)] * z[k]`, one entry per matrix row. -/
def GetRandomOffset (pc : PCov) (z : List ℚ) : List ℚ :=
  (List.range (GetDimension pc)).map fun i =>
    ∑ k ∈ Finset.range (i + 1), lget pc.fL (pidx i k) * z.getD k 0

/-- Tiny concrete covariance object (dimension 2, packed factor
[1, 2, 3]) used to instantiate the GetRandomOffset result. -/
def pcSmall : PCov := ⟨.base, [1, 2, 3], [.eDiskB1, .eDiskB2], VfromL [1, 2, 3]⟩

/-! ## Field evaluator: constants and geometry (`UF23Field.cc`, namespace `utl`) -/

noncomputable section

/-- `utl::kPi`, the literal written in the source (not the exact pi). -/
def kPi : ℝ := 3.1415926535897932384626

/-- `utl::kLn10`. -/
def kLn10 : ℝ := 2.3025850929940456840180

/-- `utl::kTwoPi`. -/
def kTwoPi : ℝ := 2 * kPi

/-- `utl::degree`. -/
def degree : ℝ := kPi / 180

/-- `utl::kpc`, the internal length unit. -/
def kpc : ℝ := 1

/-- `utl::microgauss`, the internal field unit. -/
def microgauss : ℝ := 1

/-- `utl::megayear`, the internal time unit. -/
def megayear : ℝ := 1

/-- `utl::Gpc`. -/
def Gpc : ℝ := 1e6 * kpc

/-- `utl::pc`. -/
def pc : ℝ := 1e-3 * kpc

/-- `utl::second`. -/
def second : ℝ := megayear / (1e6 * 60 * 60 * 24 * 365.25)

/-- `utl::kilometer`. -/
def kilometer : ℝ := kpc / 3.0856775807e+16

/-- `Vector3`, the external 3-vector value type (spec §2: elementwise
arithmetic, scalar scaling and division, squared length). -/
structure Vector3 where
  x : ℝ
  y : ℝ
  z : ℝ

instance : Add Vector3 := ⟨fun u v => ⟨u.x + v.x, u.y + v.y, u.z + v.z⟩⟩

/-- `Vector3 * scalar`. -/
def Vector3.mulScalar (v : Vector3) (k : ℝ) : Vector3 := ⟨v.x * k, v.y * k, v.z * k⟩

/-- `Vector3 / scalar`. -/
def Vector3.divScalar (v : Vector3) (k : ℝ) : Vector3 := ⟨v.x / k, v.y / k, v.z / k⟩

/-- `Vector3::SquaredLength()`. -/
def Vector3.squaredLength (v : Vector3) : ℝ := v.x * v.x + v.y * v.y + v.z * v.z

/-- `utl::CylToCart`. -/
def CylToCart (v : Vector3) (cosPhi sinPhi : ℝ) : Vector3 :=
  ⟨v.x * cosPhi - v.y * sinPhi, v.x * sinPhi + v.y * cosPhi, v.z⟩

/-- `utl::CartToCyl`. -/
def CartToCyl (v : Vector3) (cosPhi sinPhi : ℝ) : Vector3 :=
  ⟨v.x * cosPhi + v.y * sinPhi, -v.x * sinPhi + v.y * cosPhi, v.z⟩

/-- `utl::Sigmoid`: the logistic sigmoid `1/(1+exp(-(x-x0)/w))`. -/
def Sigmoid (x x0 w : ℝ) : ℝ := 1 / (1 + Real.exp (-(x - x0) / w))

/-- `utl::DeltaPhi`: `acos(cos(phi1)cos(phi0) + sin(phi1)sin(phi0))`. -/
def DeltaPhi (phi0 phi1 : ℝ) : ℝ :=
  Real.arccos (Real.cos phi1 * Real.cos phi0 + Real.sin phi1 * Real.sin phi0)

/-- Model of the C library `atan2` (standard quadrant conventions). -/
def atan2 (y x : ℝ) : ℝ :=
  if 0 < x then Real.arctan (y / x)
  else if x < 0 then
    (if 0 ≤ y then Real.arctan (y / x) + Real.pi else Real.arctan (y / x) - Real.pi)
  else if 0 < y then Real.pi / 2 else if y < 0 then -(Real.pi / 2) else 0

/-- `std::numeric_limits<double>::min()`: the smallest positive normalised
double, exactly 2^-1022. -/
def minPos : ℝ := (2 : ℝ) ^ (-1022 : ℤ)

/-- `maxArg` of `GetTwistedHaloField`:
`std::numeric_limits<double>::max_exponent10 * utl::kLn10` with
`max_exponent10 = 308` for IEEE double. -/
def maxArg : ℝ := 308 * kLn10

end

/-! ## Field evaluator: model state and hard-coded parameter sets -/

noncomputable section

/-- State of a `UF23Field` object: the fields of `UF23Field.h`
(`fParameters` as a function of the parameter identifier, plus the
cached pitch-angle trig values). -/
@[ext]
structure UF23State where
  modelType : ModelType
  maxRadiusSquared : ℝ
  params : EPar → ℝ
  sinPitch : ℝ
  cosPitch : ℝ
  tanPitch : ℝ

/-- The per-variant hard-coded parameter sets of the `UF23Field`
constructor (`UF23Field.cc` lines 86-282): the parameter array is
zero-initialised, `fPoloidalA` is set to `1 * Gpc` before the switch for
every variant (overridden inside the `expX` case), and each `case` block
assigns the listed fitted constants. -/
def modelParams : ModelType → EPar → ℝ
  | .base, .eDiskB1 => 1.0878565e+00 * microgauss
  | .base, .eDiskB2 => 2.6605034e+00 * microgauss
  | .base, .eDiskB3 => 3.1166311e+00 * microgauss
  | .base, .eDiskH => 7.9408965e-01 * kpc
  | .base, .eDiskPhase1 => 2.6316589e+02 * degree
  | .base, .eDiskPhase2 => 9.7782269e+01 * degree
  | .base, .eDiskPhase3 => 3.5112281e+01 * degree
  | .base, .eDiskPitch => 1.0106900e+01 * degree
  | .base, .eDiskW => 1.0720909e-01 * kpc
  | .base, .ePoloidalB => 9.7775487e-01 * microgauss
  | .base, .ePoloidalP => 1.4266186e+00 * kpc
  | .base, .ePoloidalR => 7.2925417e+00 * kpc
  | .base, .ePoloidalW => 1.1188158e-01 * kpc
  | .base, .ePoloidalZ => 4.4597373e+00 * kpc
  | .base, .eStriation => 3.4557571e-01
  | .base, .eToroidalBN => 3.2556760e+00 * microgauss
  | .base, .eToroidalBS => -3.0914569e+00 * microgauss
  | .base, .eToroidalR => 1.0193815e+01 * kpc
  | .base, .eToroidalW => 1.6936993e+00 * kpc
  | .base, .eToroidalZ => 4.0242749e+00 * kpc
  | .cre10, .eDiskB1 => 1.2035697e+00 * microgauss
  | .cre10, .eDiskB2 => 2.7478490e+00 * microgauss
  | .cre10, .eDiskB3 => 3.2104342e+00 * microgauss
  | .cre10, .eDiskH => 8.0844932e-01 * kpc
  | .cre10, .eDiskPhase1 => 2.6515882e+02 * degree
  | .cre10, .eDiskPhase2 => 9.8211313e+01 * degree
  | .cre10, .eDiskPhase3 => 3.5944588e+01 * degree
  | .cre10, .eDiskPitch => 1.0162759e+01 * degree
  | .cre10, .eDiskW => 1.0824003e-01 * kpc
  | .cre10, .ePoloidalB => 9.6938453e-01 * microgauss
  | .cre10, .ePoloidalP => 1.4150957e+00 * kpc
  | .cre10, .ePoloidalR => 7.2987296e+00 * kpc
  | .cre10, .ePoloidalW => 1.0923051e-01 * kpc
  | .cre10, .ePoloidalZ => 4.5748332e+00 * kpc
  | .cre10, .eStriation => 2.4950386e-01
  | .cre10, .eToroidalBN => 3.7308133e+00 * microgauss
  | .cre10, .eToroidalBS => -3.5039958e+00 * microgauss
  | .cre10, .eToroidalR => 1.0407507e+01 * kpc
  | .cre10, .eToroidalW => 1.7398375e+00 * kpc
  | .cre10, .eToroidalZ => 2.9272800e+00 * kpc
  | .nebCor, .eDiskB1 => 1.4081935e+00 * microgauss
  | .nebCor, .eDiskB2 => 3.5292400e+00 * microgauss
  | .nebCor, .eDiskB3 => 4.1290147e+00 * microgauss
  | .nebCor, .eDiskH => 8.1151971e-01 * kpc
  | .nebCor, .eDiskPhase1 => 2.6447529e+02 * degree
  | .nebCor, .eDiskPhase2 => 9.7572660e+01 * degree
  | .nebCor, .eDiskPhase3 => 3.6403798e+01 * degree
  | .nebCor, .eDiskPitch => 1.0151183e+01 * degree
  | .nebCor, .eDiskW => 1.1863734e-01 * kpc
  | .nebCor, .ePoloidalB => 1.3485916e+00 * microgauss
  | .nebCor, .ePoloidalP => 1.3414395e+00 * kpc
  | .nebCor, .ePoloidalR => 7.2473841e+00 * kpc
  | .nebCor, .ePoloidalW => 1.4318227e-01 * kpc
  | .nebCor, .ePoloidalZ => 4.8242603e+00 * kpc
  | .nebCor, .eStriation => 3.8610837e-10
  | .nebCor, .eToroidalBN => 4.6491142e+00 * microgauss
  | .nebCor, .eToroidalBS => -4.5006610e+00 * microgauss
  | .nebCor, .eToroidalR => 1.0205288e+01 * kpc
  | .nebCor, .eToroidalW => 1.7004868e+00 * kpc
  | .nebCor, .eToroidalZ => 3.5557767e+00 * kpc
  | .neCL, .eDiskB1 => 1.4259645e+00 * microgauss
  | .neCL, .eDiskB2 => 1.3543223e+00 * microgauss
  | .neCL, .eDiskB3 => 3.4390669e+00 * microgauss
  | .neCL, .eDiskH => 6.7405199e-01 * kpc
  | .neCL, .eDiskPhase1 => 1.9961898e+02 * degree
  | .neCL, .eDiskPhase2 => 1.3541461e+02 * degree
  | .neCL, .eDiskPhase3 => 6.4909767e+01 * degree
  | .neCL, .eDiskPitch => 1.1867859e+01 * degree
  | .neCL, .eDiskW => 6.1162799e-02 * kpc
  | .neCL, .ePoloidalB => 9.8387831e-01 * microgauss
  | .neCL, .ePoloidalP => 1.6773615e+00 * kpc
  | .neCL, .ePoloidalR => 7.4084361e+00 * kpc
  | .neCL, .ePoloidalW => 1.4168192e-01 * kpc
  | .neCL, .ePoloidalZ => 3.6521188e+00 * kpc
  | .neCL, .eStriation => 3.3600213e-01
  | .neCL, .eToroidalBN => 2.6256593e+00 * microgauss
  | .neCL, .eToroidalBS => -2.5699466e+00 * microgauss
  | .neCL, .eToroidalR => 1.0134257e+01 * kpc
  | .neCL, .eToroidalW => 1.1547728e+00 * kpc
  | .neCL, .eToroidalZ => 4.5585463e+00 * kpc
  | .spur, .eDiskB1 => -4.2993328e+00 * microgauss
  | .spur, .eDiskH => 7.5019749e-01 * kpc
  | .spur, .eDiskPhase1 => 1.5589875e+02 * degree
  | .spur, .eDiskPitch => 1.2074432e+01 * degree
  | .spur, .eDiskW => 1.2263120e-01 * kpc
  | .spur, .ePoloidalB => 9.9302987e-01 * microgauss
  | .spur, .ePoloidalP => 1.3982374e+00 * kpc
  | .spur, .ePoloidalR => 7.1973387e+00 * kpc
  | .spur, .ePoloidalW => 1.2262244e-01 * kpc
  | .spur, .ePoloidalZ => 4.4853270e+00 * kpc
  | .spur, .eSpurCenter => 1.5718686e+02 * degree
  | .spur, .eSpurLength => 3.1839577e+01 * degree
  | .spur, .eSpurWidth => 1.0318114e+01 * degree
  | .spur, .eStriation => 3.3022369e-01
  | .spur, .eToroidalBN => 2.9286724e+00 * microgauss
  | .spur, .eToroidalBS => -2.5979895e+00 * microgauss
  | .spur, .eToroidalR => 9.7536425e+00 * kpc
  | .spur, .eToroidalW => 1.4210055e+00 * kpc
  | .spur, .eToroidalZ => 6.0941229e+00 * kpc
  | .synCG, .eDiskB1 => 8.1386878e-01 * microgauss
  | .synCG, .eDiskB2 => 2.0586930e+00 * microgauss
  | .synCG, .eDiskB3 => 2.9437335e+00 * microgauss
  | .synCG, .eDiskH => 6.2172353e-01 * kpc
  | .synCG, .eDiskPhase1 => 2.2988551e+02 * degree
  | .synCG, .eDiskPhase2 => 9.7388282e+01 * degree
  | .synCG, .eDiskPhase3 => 3.2927367e+01 * degree
  | .synCG, .eDiskPitch => 9.9034844e+00 * degree
  | .synCG, .eDiskW => 6.6517521e-02 * kpc
  | .synCG, .ePoloidalB => 8.0883734e-01 * microgauss
  | .synCG, .ePoloidalP => 1.5820957e+00 * kpc
  | .synCG, .ePoloidalR => 7.4625235e+00 * kpc
  | .synCG, .ePoloidalW => 1.5003765e-01 * kpc
  | .synCG, .ePoloidalZ => 3.5338550e+00 * kpc
  | .synCG, .eStriation => 6.3434763e-01
  | .synCG, .eToroidalBN => 2.3991193e+00 * microgauss
  | .synCG, .eToroidalBS => -2.0919944e+00 * microgauss
  | .synCG, .eToroidalR => 9.4227834e+00 * kpc
  | .synCG, .eToroidalW => 9.1608418e-01 * kpc
  | .synCG, .eToroidalZ => 5.5844594e+00 * kpc
  | .twistX, .eDiskB1 => 1.3741995e+00 * microgauss
  | .twistX, .eDiskB2 => 2.0089881e+00 * microgauss
  | .twistX, .eDiskB3 => 1.5212463e+00 * microgauss
  | .twistX, .eDiskH => 9.3806180e-01 * kpc
  | .twistX, .eDiskPhase1 => 2.3560316e+02 * degree
  | .twistX, .eDiskPhase2 => 1.0189856e+02 * degree
  | .twistX, .eDiskPhase3 => 5.6187572e+01 * degree
  | .twistX, .eDiskPitch => 1.2100979e+01 * degree
  | .twistX, .eDiskW => 1.4933338e-01 * kpc
  | .twistX, .ePoloidalB => 6.2793114e-01 * microgauss
  | .twistX, .ePoloidalP => 2.3292519e+00 * kpc
  | .twistX, .ePoloidalR => 7.9212358e+00 * kpc
  | .twistX, .ePoloidalW => 2.9056201e-01 * kpc
  | .twistX, .ePoloidalZ => 2.6274437e+00 * kpc
  | .twistX, .eStriation => 7.7616317e-01
  | .twistX, .eTwistingTime => 5.4733549e+01 * megayear
  | .expX, .eDiskB1 => 9.9258148e-01 * microgauss
  | .expX, .eDiskB2 => 2.1821124e+00 * microgauss
  | .expX, .eDiskB3 => 3.1197345e+00 * microgauss
  | .expX, .eDiskH => 7.1508681e-01 * kpc
  | .expX, .eDiskPhase1 => 2.4745741e+02 * degree
  | .expX, .eDiskPhase2 => 9.8578879e+01 * degree
  | .expX, .eDiskPhase3 => 3.4884485e+01 * degree
  | .expX, .eDiskPitch => 1.0027070e+01 * degree
  | .expX, .eDiskW => 9.8524736e-02 * kpc
  | .expX, .ePoloidalA => 6.1938701e+00 * kpc
  | .expX, .ePoloidalB => 5.8357990e+00 * microgauss
  | .expX, .ePoloidalP => 1.9510779e+00 * kpc
  | .expX, .ePoloidalR => 2.4994376e+00 * kpc
  | .expX, .ePoloidalXi => 2.0926122e+01 * degree
  | .expX, .ePoloidalZ => 6.1938701e+00 * kpc * Real.tan (2.0926122e+01 * degree)
  | .expX, .eStriation => 5.1440500e-01
  | .expX, .eToroidalBN => 2.7077434e+00 * microgauss
  | .expX, .eToroidalBS => -2.5677104e+00 * microgauss
  | .expX, .eToroidalR => 1.0134022e+01 * kpc
  | .expX, .eToroidalW => 2.0956159e+00 * kpc
  | .expX, .eToroidalZ => 5.4564991e+00 * kpc
  | _, .ePoloidalA => 1 * Gpc
  | _, _ => 0

/-- The `UF23Field` constructor: stores the variant, the radius cutoff
`fMaxRadiusSquared = pow(maxRadiusInKpc * kpc, 2)`, the variant's parameter
set and the derived pitch-angle trig values. -/
def mkUF23Field (mt : ModelType) (maxRadiusInKpc : ℝ) : UF23State :=
  { modelType := mt
    maxRadiusSquared := (maxRadiusInKpc * kpc) ^ 2
    params := modelParams mt
    sinPitch := Real.sin (modelParams mt .eDiskPitch)
    cosPitch := Real.cos (modelParams mt .eDiskPitch)
    tanPitch := Real.tan (modelParams mt .eDiskPitch) }

end

/-! ## Field evaluator: field components (`UF23Field.cc`) -/

noncomputable section

/-- `UF23Field::GetToroidalHaloField`. -/
def GetToroidalHaloField (s : UF23State) (x y z : ℝ) : Vector3 :=
  let r2 := x * x + y * y
  let r := Real.sqrt r2
  let absZ := |z|
  let b0 := if 0 ≤ z then s.params .eToroidalBN else s.params .eToroidalBS
  let rh := s.params .eToroidalR
  let z0 := s.params .eToroidalZ
  let fwh := s.params .eToroidalW
  let sigmoidR := Sigmoid r rh fwh
  let sigmoidZ := Sigmoid absZ (s.params .eDiskH) (s.params .eDiskW)
  let bPhi := b0 * (1 - sigmoidR) * sigmoidZ * Real.exp (-absZ / z0)
  let cosPhi := if minPos < r then x / r else 1
  let sinPhi := if minPos < r then y / r else 0
  CylToCart ⟨0, bPhi, 0⟩ cosPhi sinPhi

/-- `c = pow(fPoloidalA/fPoloidalZ, fPoloidalP)` of `GetPoloidalHaloField`. -/
def poloidalC (s : UF23State) : ℝ :=
  (s.params .ePoloidalA / s.params .ePoloidalZ) ^ s.params .ePoloidalP

/-- `a0p = pow(fPoloidalA, fPoloidalP)` of `GetPoloidalHaloField`. -/
def poloidalA0p (s : UF23State) : ℝ := s.params .ePoloidalA ^ s.params .ePoloidalP

/-- `t0 = a0p + cabszp - rp` of `GetPoloidalHaloField`. -/
def poloidalT0 (s : UF23State) (x y z : ℝ) : ℝ :=
  let r := Real.sqrt (x * x + y * y)
  poloidalA0p s + poloidalC s * |z| ^ s.params .ePoloidalP - r ^ s.params .ePoloidalP

/-- `t1 = sqrt(pow(t0, 2) + 4*a0p*rp)` of `GetPoloidalHaloField`. -/
def poloidalT1 (s : UF23State) (x y z : ℝ) : ℝ :=
  Real.sqrt (poloidalT0 s x y z ^ 2 +
    4 * poloidalA0p s * Real.sqrt (x * x + y * y) ^ s.params .ePoloidalP)

/-- `ap = 2*a0p*rp / (t1 + t0)`, the stabilised squared ellipsoidal radius
of `GetPoloidalHaloField`. -/
def poloidalAp (s : UF23State) (x y z : ℝ) : ℝ :=
  2 * poloidalA0p s * Real.sqrt (x * x + y * y) ^ s.params .ePoloidalP /
    (poloidalT1 s x y z + poloidalT0 s x y z)

/-- Remainder of `GetPoloidalHaloField` after the ellipsoidal radius `a`
has been determined (the `ap` variable itself stays at its computed value
even on the tolerated `a = 0` path, as in the source). -/
def poloidalRest (s : UF23State) (x y z a : ℝ) : Vector3 :=
  let p := s.params .ePoloidalP
  let r := Real.sqrt (x * x + y * y)
  let t0 := poloidalT0 s x y z
  let t1 := poloidalT1 s x y z
  let ap := poloidalAp s x y z
  let radialDependence :=
    if s.modelType = .expX then Real.exp (-a / s.params .ePoloidalR)
    else 1 - Sigmoid a (s.params .ePoloidalR) (s.params .ePoloidalW)
  let Bzz := s.params .ePoloidalB * radialDependence
  let rOverA := 1 / (2 * poloidalA0p s / (t1 + t0)) ^ (1 / p)
  let signZ := if z < 0 then (-1 : ℝ) else 1
  let Br := Bzz * poloidalC s * a / rOverA * signZ * |z| ^ (p - 1) / t1
  let Bz := Bzz * rOverA ^ (p - 2) * (ap + poloidalA0p s) / t1
  if r < minPos then ⟨0, 0, Bz⟩
  else CylToCart ⟨Br, 0, Bz⟩ (x / r) (y / r)

/-- `UF23Field::GetPoloidalHaloField`: throws when the solved squared
ellipsoidal radius is negative away from the rotation axis
(`r > std::numeric_limits<double>::min()`), tolerates it as `a = 0` on the
axis, and otherwise sets `a = pow(ap, 1/fPoloidalP)`. -/
def GetPoloidalHaloField (s : UF23State) (x y z : ℝ) : Except String Vector3 :=
  let r := Real.sqrt (x * x + y * y)
  if poloidalAp s x y z < 0 then
    if minPos < r then .error "ap < 0"
    else .ok (poloidalRest s x y z 0)
  else .ok (poloidalRest s x y z (poloidalAp s x y z ^ (1 / s.params .ePoloidalP)))

/-- `UF23Field::GetTwistedHaloField`. -/
def GetTwistedHaloField (s : UF23State) (x y z : ℝ) : Except String Vector3 :=
  let r := Real.sqrt (x * x + y * y)
  let cosPhi := if minPos < r then x / r else 1
  let sinPhi := if minPos < r then y / r else 0
  match GetPoloidalHaloField s x y z with
  | .error e => .error e
  | .ok bXCart =>
    let bXCyl := CartToCyl bXCart cosPhi sinPhi
    let bZ := bXCyl.z
    let bR := bXCyl.x
    let bPhi :=
      if s.params .eTwistingTime ≠ 0 ∧ r ≠ 0 then
        let v0 := -240 * kilometer / second
        let r0 := 1.6 * kpc
        let z0 := 10 * kpc
        let fr := 1 - Real.exp (-r / r0)
        let arg := 2 * |z| / z0
        if maxArg < arg then 0
        else
          let t0 := Real.exp arg
          let gz := 2 / (1 + t0)
          let signZ := if z < 0 then (-1 : ℝ) else 1
          let deltaZ := -signZ * v0 * fr / z0 * t0 * gz ^ 2
          let deltaR := v0 * ((1 - fr) / r0 - fr / r) * gz
          (bZ * deltaZ + bR * deltaR) * s.params .eTwistingTime
      else 0
    .ok (CylToCart ⟨bR, bPhi, bZ⟩ cosPhi sinPhi)

/-- `UF23Field::GetSpiralField`. -/
def GetSpiralField (s : UF23State) (x y z : ℝ) : Vector3 :=
  let rRef := 5 * kpc
  let rInner := 5 * kpc
  let wInner := 0.5 * kpc
  let rOuter := 20 * kpc
  let wOuter := 0.5 * kpc
  let r2 := x * x + y * y
  if r2 = 0 then ⟨0, 0, 0⟩
  else
    let r := Real.sqrt r2
    let phi := atan2 y x
    let hdz := 1 - Sigmoid |z| (s.params .eDiskH) (s.params .eDiskW)
    let rFacI := Sigmoid r rInner wInner
    let rFacO := 1 - Sigmoid r rOuter wOuter
    let rFac := if 1e-5 * pc < r then (1 - Real.exp (-r * r)) / r else r * (1 - r2 / 2)
    let gdrTimesRrefByR := rRef * rFac * rFacO * rFacI
    let phi0 := phi - Real.log (r / rRef) / s.tanPitch
    let b :=
      s.params .eDiskB1 * Real.cos (1 * (phi0 - s.params .eDiskPhase1)) +
      s.params .eDiskB2 * Real.cos (2 * (phi0 - s.params .eDiskPhase2)) +
      s.params .eDiskB3 * Real.cos (3 * (phi0 - s.params .eDiskPhase3))
    let fac := hdz * gdrTimesRrefByR
    CylToCart ⟨b * fac * s.sinPitch, b * fac * s.cosPitch, 0⟩ (x / r) (y / r)

/-- `UF23Field::GetSpurField` (the three-candidate branch search of the
`i = -1, 0, 1` loop is unrolled exactly as the loop executes: the first
iteration always replaces the `bestDist = -1` sentinel, later iterations
replace it only on strictly smaller distance). -/
def GetSpurField (s : UF23State) (x y z : ℝ) : Vector3 :=
  let rRef := 8.2 * kpc
  let r2 := x * x + y * y
  let r := Real.sqrt r2
  if r < minPos then ⟨0, 0, 0⟩
  else
    let phiRaw := atan2 y x
    let phi := if phiRaw < 0 then phiRaw + kTwoPi else phiRaw
    let phiRef := s.params .eDiskPhase1
    let dm := |r - rRef * Real.exp ((phi - phiRef + -1 * kTwoPi) * s.tanPitch)|
    let d0 := |r - rRef * Real.exp ((phi - phiRef + 0 * kTwoPi) * s.tanPitch)|
    let dp := |r - rRef * Real.exp ((phi - phiRef + 1 * kTwoPi) * s.tanPitch)|
    let iBest : ℤ := if d0 < dm then (if dp < d0 then 1 else 0) else (if dp < dm then 1 else -1)
    if iBest = 0 then
      let phi0 := phi - Real.log (r / rRef) / s.tanPitch
      let deltaPhi0 := DeltaPhi phiRef phi0
      let delta := deltaPhi0 / s.params .eSpurWidth
      let B := s.params .eDiskB1 * Real.exp (-0.5 * delta ^ 2)
      let wS := 5 * degree
      let phiC := s.params .eSpurCenter
      let deltaPhiC := DeltaPhi phiC phi
      let lC := s.params .eSpurLength
      let gS := 1 - Sigmoid |deltaPhiC| lC wS
      let hd := 1 - Sigmoid |z| (s.params .eDiskH) (s.params .eDiskW)
      let bS := rRef / r * B * hd * gS
      CylToCart ⟨bS * s.sinPitch, bS * s.cosPitch, 0⟩ (x / r) (y / r)
    else ⟨0, 0, 0⟩

/-- `UF23Field::GetDiskField`: dispatch on the variant. -/
def GetDiskField (s : UF23State) (pos : Vector3) : Vector3 :=
  if s.modelType = .spur then GetSpurField s pos.x pos.y pos.z
  else GetSpiralField s pos.x pos.y pos.z

/-- `UF23Field::GetHaloField`: dispatch on the variant; the exception of
the poloidal part propagates. -/
def GetHaloField (s : UF23State) (pos : Vector3) : Except String Vector3 :=
  if s.modelType = .twistX then GetTwistedHaloField s pos.x pos.y pos.z
  else
    match GetPoloidalHaloField s pos.x pos.y pos.z with
    | .error e => .error e
    | .ok p => .ok (GetToroidalHaloField s pos.x pos.y pos.z + p)

/-- `UF23Field::operator()`: the radius cutoff followed by the sum of the
disk and halo fields, divided by `microgauss`. -/
def evaluate (s : UF23State) (posInKpc : Vector3) : Except String Vector3 :=
  let pos := posInKpc.mulScalar kpc
  if s.maxRadiusSquared < pos.squaredLength then .ok ⟨0, 0, 0⟩
  else
    match GetHaloField s pos with
    | .error e => .error e
    | .ok h => .ok ((GetDiskField s pos + h).divScalar microgauss)

/-- Component extractors used to state axis results (`.error` maps to 0). -/
def evalY (s : UF23State) (posInKpc : Vector3) : ℝ :=
  match evaluate s posInKpc with
  | .ok v => v.y
  | .error _ => 0

end

/-! ## Field evaluator: parameter access (`GetParameters` / `SetParameters`) -/

noncomputable section

/-- Position of each parameter in the flat `fParameters` array
(the declaration order of `enum EPar`). -/
def idxOfEpar : EPar → ℕ
  | .eDiskB1 => 0
  | .eDiskB2 => 1
  | .eDiskB3 => 2
  | .eDiskH => 3
  | .eDiskPhase1 => 4
  | .eDiskPhase2 => 5
  | .eDiskPhase3 => 6
  | .eDiskPitch => 7
  | .eDiskW => 8
  | .ePoloidalA => 9
  | .ePoloidalB => 10
  | .ePoloidalP => 11
  | .ePoloidalR => 12
  | .ePoloidalW => 13
  | .ePoloidalZ => 14
  | .ePoloidalXi => 15
  | .eSpurCenter => 16
  | .eSpurLength => 17
  | .eSpurWidth => 18
  | .eStriation => 19
  | .eToroidalBN => 20
  | .eToroidalBS => 21
  | .eToroidalR => 22
  | .eToroidalW => 23
  | .eToroidalZ => 24
  | .eTwistingTime => 25

/-- Inverse of `idxOfEpar` on 0..25 (indices beyond the parameter count,
which the loops never produce, default to the first parameter). -/
def eparOfIdx : ℕ → EPar
  | 0 => .eDiskB1
  | 1 => .eDiskB2
  | 2 => .eDiskB3
  | 3 => .eDiskH
  | 4 => .eDiskPhase1
  | 5 => .eDiskPhase2
  | 6 => .eDiskPhase3
  | 7 => .eDiskPitch
  | 8 => .eDiskW
  | 9 => .ePoloidalA
  | 10 => .ePoloidalB
  | 11 => .ePoloidalP
  | 12 => .ePoloidalR
  | 13 => .ePoloidalW
  | 14 => .ePoloidalZ
  | 15 => .ePoloidalXi
  | 16 => .eSpurCenter
  | 17 => .eSpurLength
  | 18 => .eSpurWidth
  | 19 => .eStriation
  | 20 => .eToroidalBN
  | 21 => .eToroidalBS
  | 22 => .eToroidalR
  | 23 => .eToroidalW
  | 24 => .eToroidalZ
  | 25 => .eTwistingTime
  | _ => .eDiskB1

/-- `utl::unitConv` (`UF23Field.cc` lines 581-609): the per-parameter
external-unit conversion constants, in `EPar` order. -/
def unitConvL : List ℝ :=
  [microgauss, microgauss, microgauss, kpc,
   degree, degree, degree, degree,
   kpc, kpc, microgauss, 1,
   kpc, kpc, kpc, degree,
   degree, degree, degree, 1,
   microgauss, microgauss, kpc, kpc, kpc,
   megayear]

/-- `UF23Field::GetParameters`: the external-unit parameter vector
`fParameters[i] / unitConv[i]` for `i = 0 .. eNpar-1` (the guard on the
unit-table size is the dead check of the source). -/
def getParameters (s : UF23State) : Except String (List ℝ) :=
  if unitConvL.length ≠ 26 then .error "invalid unit vector"
  else .ok ((List.range 26).map fun i => s.params (eparOfIdx i) / unitConvL.getD i 0)

/-- The assignment loop of `UF23Field::SetParameters`:
`fParameters[i] = newpar[i] * unitConv[i]`. -/
def setP1 (newpar : List ℝ) : EPar → ℝ :=
  fun e => newpar.getD (idxOfEpar e) 0 * unitConvL.getD (idxOfEpar e) 0

/-- `UF23Field::SetParameters`: checks the length, converts each entry to
internal units, re-derives the pitch trig values and, for `expX`,
re-derives `fPoloidalZ = fPoloidalA * tan(fPoloidalXi)`. -/
def setParameters (s : UF23State) (newpar : List ℝ) : Except String UF23State :=
  if newpar.length ≠ 26 then .error "invalid parameter vector"
  else if unitConvL.length ≠ 26 then .error "invalid unit vector"
  else
    .ok { modelType := s.modelType
          maxRadiusSquared := s.maxRadiusSquared
          params := if s.modelType = .expX then
              Function.update (setP1 newpar) .ePoloidalZ
                (setP1 newpar .ePoloidalA * Real.tan (setP1 newpar .ePoloidalXi))
            else setP1 newpar
          sinPitch := Real.sin (setP1 newpar .eDiskPitch)
          cosPitch := Real.cos (setP1 newpar .eDiskPitch)
          tanPitch := Real.tan (setP1 newpar .eDiskPitch) }

/-- C++ exception semantics of a `SetParameters` call on an object: a
throw happens before any mutation, so the object is unchanged on error. -/
def setParametersRun (s : UF23State) (newpar : List ℝ) : UF23State :=
  match setParameters s newpar with
  | .ok t => t
  | .error _ => s

/-- The vector returned by a successful `GetParameters()` call. -/
def getParametersD (s : UF23State) : List ℝ :=
  match getParameters s with
  | .ok l => l
  | .error _ => []

/-- State invariant maintained by the constructor and `SetParameters`:
the cached trig values match the stored pitch angle, and for `expX` the
vertical scale is derived from the opening angle. -/
def Inv (s : UF23State) : Prop :=
  s.sinPitch = Real.sin (s.params .eDiskPitch)
  ∧ s.cosPitch = Real.cos (s.params .eDiskPitch)
  ∧ s.tanPitch = Real.tan (s.params .eDiskPitch)
  ∧ (s.modelType = .expX →
      s.params .ePoloidalZ = s.params .ePoloidalA * Real.tan (s.params .ePoloidalXi))

/-- Reachable model states: a constructor call followed by any sequence of
`SetParameters` calls (the only mutating operation). -/
inductive Reachable : UF23State → Prop where
  | construct (mt : ModelType) (maxRadiusInKpc : ℝ) :
      Reachable (mkUF23Field mt maxRadiusInKpc)
  | update (s : UF23State) (newpar : List ℝ) :
      Reachable s → Reachable (setParametersRun s newpar)

end

/-! ## Stabilised ellipsoidal-radius expression (C9) and helper facts -/

noncomputable section

/-- The stabilised form `b/(sqrt(a^2+b)+a)` as instantiated in
`GetPoloidalHaloField`: `2*a0p*rp / (sqrt(t0^2 + 4*a0p*rp) + t0)`. -/
def apStable (a0p rp t0 : ℝ) : ℝ :=
  2 * a0p * rp / (Real.sqrt (t0 ^ 2 + 4 * a0p * rp) + t0)

/-- The cancellation-prone form `(sqrt(a^2+b) - a)/2` that the spec says
the stabilised expression replaces (spec §4.1, poloidal halo). -/
def apNaive (a0p rp t0 : ℝ) : ℝ :=
  (Real.sqrt (t0 ^ 2 + 4 * a0p * rp) - t0) / 2

/-- Concrete state exercising the negative-`ap` branch of the poloidal
solve (physically out-of-range parameters `A = -1`, `p = 1`, `Z = -1`). -/
def sC6 : UF23State :=
  { modelType := .base
    maxRadiusSquared := 0
    params := fun e => match e with
      | .ePoloidalA => -1
      | .ePoloidalP => 1
      | .ePoloidalZ => -1
      | _ => 0
    sinPitch := 0
    cosPitch := 0
    tanPitch := 0 }

end

/-! ## Lemmas and claim theorems -/

/-! ### Loop characterisation lemmas -/

lemma vsum_comm (L : List ℚ) (i j : ℕ) : vsum L i j = vsum L j i := by
  unfold vsum
  rw [min_comm]
  exact Finset.sum_congr rfl fun k _ => mul_comm _ _

lemma vrow_foldl_spec (L : List ℚ) (i : ℕ) (M : ℕ → ℕ → ℚ) (m : ℕ) (a b : ℕ) :
    ((List.range m).foldl (vstep L i) M) a b =
      if a = i ∧ b < m then vsum L i b
      else if b = i ∧ a < m then vsum L i a
      else M a b := by
  induction m generalizing a b with
  | zero => simp
  | succ m ih =>
    have hfold : (List.range (m + 1)).foldl (vstep L i) M =
        vstep L i ((List.range m).foldl (vstep L i) M) m := by
      rw [List.range_succ, List.foldl_append]
      rfl
    rw [hfold]
    set N := (List.range m).foldl (vstep L i) M with hN
    simp only [vstep, mset]
    by_cases him : i = m
    · subst him
      simp only [ne_eq, not_true_eq_false, if_false, ite_false, mset]
      rw [ih a b]
      split_ifs <;> first | rfl | omega | (congr 1 <;> omega)
    · simp only [ne_eq, him, not_false_eq_true, if_true, ite_true, mset]
      rw [ih a b]
      split_ifs <;> first | rfl | omega | (congr 1 <;> omega)

lemma vrow_spec (L : List ℚ) (i : ℕ) (M : ℕ → ℕ → ℚ) (a b : ℕ) :
    vrow L M i a b =
      if a = i ∧ b ≤ i then vsum L i b
      else if b = i ∧ a ≤ i then vsum L i a
      else M a b := by
  rw [vrow, vrow_foldl_spec]
  simp [Nat.lt_succ_iff]

lemma vloop_spec (L : List ℚ) (q : ℕ) (a b : ℕ) :
    vloop L q a b =
      if a < q ∧ b ≤ a then vsum L a b
      else if b < q ∧ a ≤ b then vsum L b a
      else 0 := by
  induction q generalizing a b with
  | zero => simp [vloop]
  | succ q ih =>
    have hstep : vloop L (q + 1) a b = vrow L (vloop L q) q a b := by
      unfold vloop
      rw [List.range_succ, List.foldl_append]
      simp
    rw [hstep, vrow_spec, ih a b]
    by_cases h1 : a = q ∧ b ≤ q
    · obtain ⟨h1a, h1b⟩ := h1
      have ht : a < q + 1 ∧ b ≤ a := by omega
      rw [if_pos ⟨h1a, h1b⟩, if_pos ht, h1a]
    · rw [if_neg h1]
      by_cases h2 : b = q ∧ a ≤ q
      · obtain ⟨h2a, h2b⟩ := h2
        have hne : ¬ (a < q + 1 ∧ b ≤ a) := by omega
        have ht : b < q + 1 ∧ a ≤ b := by omega
        rw [if_pos ⟨h2a, h2b⟩, if_neg hne, if_pos ht, h2a]
      · rw [if_neg h2]
        by_cases h3 : a < q ∧ b ≤ a
        · have ht : a < q + 1 ∧ b ≤ a := by omega
          rw [if_pos h3, if_pos ht]
        · rw [if_neg h3]
          by_cases h4 : b < q ∧ a ≤ b
          · have hne : ¬ (a < q + 1 ∧ b ≤ a) := by omega
            have ht : b < q + 1 ∧ a ≤ b := by omega
            rw [if_pos h4, if_neg hne, if_pos ht]
          · have hne1 : ¬ (a < q + 1 ∧ b ≤ a) := by omega
            have hne2 : ¬ (b < q + 1 ∧ a ≤ b) := by omega
            rw [if_neg h4, if_neg hne1, if_neg hne2]

lemma covDim_eq (L : List ℚ) (n : ℕ) (h : L.length = n * (n + 1) / 2) :
    covDim L = n := by
  have hdvd : n * (n + 1) / 2 * 2 = n * (n + 1) :=
    Nat.div_mul_cancel (Nat.even_mul_succ_self n).two_dvd
  have h8 : 1 + 8 * L.length = (2 * n + 1) ^ 2 := by
    rw [h]
    calc 1 + 8 * (n * (n + 1) / 2) = 1 + 4 * (n * (n + 1) / 2 * 2) := by ring
    _ = 1 + 4 * (n * (n + 1)) := by rw [hdvd]
    _ = (2 * n + 1) ^ 2 := by ring
  unfold covDim
  rw [h8, Nat.sqrt_eq']
  omega

lemma VfromL_entry (L : List ℚ) (n : ℕ) (h : L.length = n * (n + 1) / 2)
    (i j : ℕ) (hi : i < n) (hj : j < n) : VfromL L i j = vsum L i j := by
  unfold VfromL
  rw [covDim_eq L n h, vloop_spec]
  rcases le_total j i with hji | hij
  · rw [if_pos ⟨hi, hji⟩]
  · by_cases hji : j ≤ i
    · rw [if_pos ⟨hi, hji⟩]
    · rw [if_neg (by omega), if_pos ⟨hj, hij⟩, vsum_comm]

lemma VfromL_symm (L : List ℚ) (a b : ℕ) : VfromL L a b = VfromL L b a := by
  unfold VfromL
  rw [vloop_spec, vloop_spec]
  split_ifs <;> first | rfl | omega | (exact vsum_comm L a b)

lemma getD_map_range {α : Type} (f : ℕ → α) (d : α) (n i : ℕ) (h : i < n) :
    ((List.range n).map f).getD i d = f i := by
  rw [List.getD_eq_getElem?_getD, List.getElem?_map, List.getElem?_range h]
  rfl

lemma minPos_pos : 0 < minPos := by
  unfold minPos
  positivity

lemma Sigmoid_pos (x x0 w : ℝ) : 0 < Sigmoid x x0 w := by
  unfold Sigmoid
  positivity

lemma Sigmoid_lt_one (x x0 w : ℝ) : Sigmoid x x0 w < 1 := by
  unfold Sigmoid
  rw [div_lt_one (by positivity)]
  linarith [Real.exp_pos (-(x - x0) / w)]

@[simp]
lemma Vector3.add_mk (a b c d e f : ℝ) :
    (⟨a, b, c⟩ + ⟨d, e, f⟩ : Vector3) = ⟨a + d, b + e, c + f⟩ := rfl

@[simp]
lemma Vector3.divScalar_mk (a b c k : ℝ) :
    Vector3.divScalar ⟨a, b, c⟩ k = ⟨a / k, b / k, c / k⟩ := rfl

@[simp]
lemma Vector3.mulScalar_mk (a b c k : ℝ) :
    Vector3.mulScalar ⟨a, b, c⟩ k = ⟨a * k, b * k, c * k⟩ := rfl

@[simp]
lemma Vector3.squaredLength_mk (a b c : ℝ) :
    Vector3.squaredLength ⟨a, b, c⟩ = a * a + b * b + c * c := rfl

/-- C1: the `ParameterCovariance` constructor succeeds on every defined
variant tag, storing that variant's hard-coded packed Cholesky factor and
ordered index list (pinned to the provided `base` table at tag 0) and the
derived matrix `VfromL fL`; every tag outside the eight defined variants
raises the `"unknown field model"` configuration error. -/
theorem claim_C1 (tables : ModelType → List ℚ × List EPar)
    (hb : tables .base = (baseL, baseIndices)) (v : ℕ) (hv : 8 ≤ v) :
    mkParameterCovariance tables v = .error "unknown field model"
    ∧ mkParameterCovariance tables 0 = .ok ⟨.base, baseL, baseIndices, VfromL baseL⟩
    ∧ (∀ w mt, modelTypeOfNat w = some mt →
        mkParameterCovariance tables w =
          .ok ⟨mt, (tables mt).1, (tables mt).2, VfromL (tables mt).1⟩)
    ∧ (∀ w : ℕ, w < 8 → ∃ mt, modelTypeOfNat w = some mt) := by
  refine ⟨?_, ?_, ?_, ?_⟩
  · obtain ⟨k, rfl⟩ : ∃ k, v = k + 8 := ⟨v - 8, by omega⟩
    rfl
  · simp [mkParameterCovariance, modelTypeOfNat, hb]
  · intro w mt hw
    unfold mkParameterCovariance
    rw [hw]
  · intro w hw
    interval_cases w <;> exact ⟨_, rfl⟩

/-- Witness for C1 at the concrete table function constantly equal to the
base data, tags 9 (undefined) and 0 (base). -/
theorem claim_C1_witness :
    (8 : ℕ) ≤ 9
    ∧ mkParameterCovariance (fun _ => (baseL, baseIndices)) 9 = .error "unknown field model"
    ∧ mkParameterCovariance (fun _ => (baseL, baseIndices)) 0 =
        .ok ⟨.base, baseL, baseIndices, VfromL baseL⟩ :=
  ⟨by norm_num, (claim_C1 (fun _ => (baseL, baseIndices)) rfl 9 (by norm_num)).1,
    (claim_C1 (fun _ => (baseL, baseIndices)) rfl 9 (by norm_num)).2.1⟩

/-- C3: `GetRandomOffset` maps a standard-normal vector `z` to the vector
of the same length `n` whose `i`-th entry is the lower-triangular product
`delta[i] = sum_{k=0..i} L[i(i+1)/2+k] * z[k]`. -/
theorem claim_C3 (pc : PCov) (z : List ℚ) (hz : z.length = GetDimension pc) :
    (GetRandomOffset pc z).length = GetDimension pc
    ∧ ∀ i, i < GetDimension pc →
        (GetRandomOffset pc z).getD i 0 =
          ∑ k ∈ Finset.range (i + 1), lget pc.fL (pidx i k) * z.getD k 0 := by
  constructor
  · simp [GetRandomOffset]
  · intro i hi
    rw [GetRandomOffset, getD_map_range _ _ _ _ hi]

/-- Witness for C3 at the two-dimensional `pcSmall` and z = [1, 1]. -/
theorem claim_C3_witness :
    ([1, 1] : List ℚ).length = GetDimension pcSmall
    ∧ (GetRandomOffset pcSmall [1, 1]).length = GetDimension pcSmall
    ∧ (GetRandomOffset pcSmall [1, 1]).getD 1 0 =
        ∑ k ∈ Finset.range (1 + 1), lget pcSmall.fL (pidx 1 k) * ([1, 1] : List ℚ).getD k 0 :=
  ⟨rfl, (claim_C3 pcSmall [1, 1] rfl).1, (claim_C3 pcSmall [1, 1] rfl).2 1 (by decide)⟩

/-- C4: for every packed lower-triangular factor of length n(n+1)/2, the
matrix built by `utl::VfromL` has entries
`V[i][j] = V[j][i] = sum_{k=0..min(i,j)} L[packed(i,k)] * L[packed(j,k)]`,
in particular it is symmetric. -/
theorem claim_C4 (L : List ℚ) (n : ℕ) (h : L.length = n * (n + 1) / 2)
    (i j : ℕ) (hi : i < n) (hj : j < n) :
    VfromL L i j = vsum L i j ∧ VfromL L i j = VfromL L j i :=
  ⟨VfromL_entry L n h i j hi hj, VfromL_symm L i j⟩

/-- Witness for C4 at the dimension-2 factor [1, 2, 3], entry (1, 0). -/
theorem claim_C4_witness :
    ([1, 2, 3] : List ℚ).length = 2 * (2 + 1) / 2 ∧ (1 : ℕ) < 2 ∧ (0 : ℕ) < 2
    ∧ (VfromL [1, 2, 3] 1 0 = vsum [1, 2, 3] 1 0
       ∧ VfromL [1, 2, 3] 1 0 = VfromL [1, 2, 3] 0 1) :=
  ⟨rfl, by norm_num, by norm_num, claim_C4 [1, 2, 3] 2 rfl 1 0 (by norm_num) (by norm_num)⟩

/-- C9: over exact real arithmetic the stabilised expression
`2*a0p*rp/(t1+t0)` equals the naive `(t1-t0)/2` whenever `a0p > 0`,
`rp ≥ 0` and `t1 + t0 ≠ 0`. -/
theorem claim_C9 (a0p rp t0 : ℝ) (ha : 0 < a0p) (hr : 0 ≤ rp)
    (hne : Real.sqrt (t0 ^ 2 + 4 * a0p * rp) + t0 ≠ 0) :
    apStable a0p rp t0 = apNaive a0p rp t0 := by
  unfold apStable apNaive
  have harg : 0 ≤ t0 ^ 2 + 4 * a0p * rp := by positivity
  have hsq : Real.sqrt (t0 ^ 2 + 4 * a0p * rp) ^ 2 = t0 ^ 2 + 4 * a0p * rp :=
    Real.sq_sqrt harg
  rw [div_eq_div_iff hne two_ne_zero]
  nlinarith [hsq]

/-- Witness for C9 at `a0p = 1`, `rp = 0`, `t0 = 1`. -/
theorem claim_C9_witness :
    (0 : ℝ) < 1 ∧ (0 : ℝ) ≤ 0
    ∧ Real.sqrt ((1 : ℝ) ^ 2 + 4 * 1 * 0) + 1 ≠ 0
    ∧ apStable 1 0 1 = apNaive 1 0 1 := by
  have hne : Real.sqrt ((1 : ℝ) ^ 2 + 4 * 1 * 0) + 1 ≠ 0 := by
    rw [show ((1 : ℝ) ^ 2 + 4 * 1 * 0) = 1 by norm_num, Real.sqrt_one]
    norm_num
  exact ⟨by norm_num, le_refl 0, hne, claim_C9 1 0 1 (by norm_num) (le_refl 0) hne⟩

set_option maxRecDepth 4000 in
/-- C10: in the base variant's index table `eToroidalR` occurs exactly
twice, in consecutive positions 9 and 10, `eToroidalW` does not occur at
all although the base parameter set assigns it the nonzero value
`1.6936993 kpc`, and the list length 20 matches the dimension implied by
the 210-entry packed factor. -/
theorem claim_C10 :
    baseIndices.length = 20
    ∧ baseL.length = 210
    ∧ covDim baseL = 20
    ∧ baseIndices.count .eToroidalR = 2
    ∧ baseIndices[9]? = some .eToroidalR
    ∧ baseIndices[10]? = some .eToroidalR
    ∧ baseIndices.count .eToroidalW = 0
    ∧ modelParams .base .eToroidalW = 1.6936993e+00 * kpc
    ∧ modelParams .base .eToroidalW ≠ 0 := by
  refine ⟨by decide, by decide, covDim_eq baseL 20 (by decide), by decide, by decide, by decide,
    by decide, rfl, ?_⟩
  rw [show modelParams .base .eToroidalW = 1.6936993e+00 * kpc from rfl]
  unfold kpc
  norm_num

/-- C2: the field evaluator returns the exact zero vector whenever the
squared length of the (kpc-scaled) position exceeds the squared cutoff
radius `(maxRadiusInKpc * kpc)^2`, and otherwise the sum of the disk and
halo fields divided by `microgauss`, for every variant. -/
theorem claim_C2 (mt : ModelType) (maxRadiusInKpc : ℝ) (pos : Vector3) :
    ((maxRadiusInKpc * kpc) ^ 2 < (pos.mulScalar kpc).squaredLength →
      evaluate (mkUF23Field mt maxRadiusInKpc) pos = .ok ⟨0, 0, 0⟩)
    ∧ ((pos.mulScalar kpc).squaredLength ≤ (maxRadiusInKpc * kpc) ^ 2 →
      evaluate (mkUF23Field mt maxRadiusInKpc) pos =
        (GetHaloField (mkUF23Field mt maxRadiusInKpc) (pos.mulScalar kpc)).map
          fun h =>
            (GetDiskField (mkUF23Field mt maxRadiusInKpc) (pos.mulScalar kpc) + h).divScalar
              microgauss) := by
  have hmr : (mkUF23Field mt maxRadiusInKpc).maxRadiusSquared =
      (maxRadiusInKpc * kpc) ^ 2 := rfl
  constructor
  · intro h
    simp only [evaluate]
    rw [hmr, if_pos h]
  · intro h
    simp only [evaluate]
    rw [hmr, if_neg (not_lt.mpr h)]
    cases hh : GetHaloField (mkUF23Field mt maxRadiusInKpc) (pos.mulScalar kpc) <;>
      simp [hh, Except.map]

/-- Witness for C2: base variant with the default 30 kpc cutoff, at the
outside position (31, 0, 0) and the inside position (0, 0, 0). -/
theorem claim_C2_witness :
    ((30 : ℝ) * kpc) ^ 2 < (Vector3.mulScalar ⟨31, 0, 0⟩ kpc).squaredLength
    ∧ evaluate (mkUF23Field .base 30) ⟨31, 0, 0⟩ = .ok ⟨0, 0, 0⟩
    ∧ (Vector3.mulScalar ⟨0, 0, 0⟩ kpc).squaredLength ≤ ((30 : ℝ) * kpc) ^ 2
    ∧ evaluate (mkUF23Field .base 30) ⟨0, 0, 0⟩ =
        (GetHaloField (mkUF23Field .base 30) (Vector3.mulScalar ⟨0, 0, 0⟩ kpc)).map
          fun h =>
            (GetDiskField (mkUF23Field .base 30) (Vector3.mulScalar ⟨0, 0, 0⟩ kpc) + h).divScalar
              microgauss := by
  have h1 : ((30 : ℝ) * kpc) ^ 2 < (Vector3.mulScalar ⟨31, 0, 0⟩ kpc).squaredLength := by
    simp only [Vector3.mulScalar_mk, Vector3.squaredLength_mk]
    unfold kpc
    norm_num
  have h2 : (Vector3.mulScalar ⟨0, 0, 0⟩ kpc).squaredLength ≤ ((30 : ℝ) * kpc) ^ 2 := by
    simp only [Vector3.mulScalar_mk, Vector3.squaredLength_mk]
    unfold kpc
    norm_num
  exact ⟨h1, (claim_C2 .base 30 ⟨31, 0, 0⟩).1 h1, h2, (claim_C2 .base 30 ⟨0, 0, 0⟩).2 h2⟩

/-- C6: the poloidal halo computation raises its fatal error exactly when
the solved squared ellipsoidal radius `ap` is negative at a position with
`r` above the smallest positive double; when `ap < 0` with `r` at or
below that bound, the ellipsoidal radius is instead set to zero and the
evaluation returns normally. -/
theorem claim_C6 (s : UF23State) (x y z : ℝ) :
    ((∃ e, GetPoloidalHaloField s x y z = .error e) ↔
      (poloidalAp s x y z < 0 ∧ minPos < Real.sqrt (x * x + y * y)))
    ∧ (poloidalAp s x y z < 0 → ¬ minPos < Real.sqrt (x * x + y * y) →
        GetPoloidalHaloField s x y z = .ok (poloidalRest s x y z 0)) := by
  unfold GetPoloidalHaloField
  by_cases hap : poloidalAp s x y z < 0
  · by_cases hr : minPos < Real.sqrt (x * x + y * y)
    · simp [hap, hr]
    · simp [hap, hr]
  · simp [hap]

/-- Witness for C6 at `sC6` and the on-axis-tolerance position
`x = minPos`, `y = 0`, `z = 2 + minPos` (where `ap < 0` but `r ≤ minPos`). -/
theorem claim_C6_witness :
    poloidalAp sC6 minPos 0 (2 + minPos) < 0
    ∧ ¬ minPos < Real.sqrt (minPos * minPos + 0 * 0)
    ∧ GetPoloidalHaloField sC6 minPos 0 (2 + minPos) =
        .ok (poloidalRest sC6 minPos 0 (2 + minPos) 0) := by
  have hA : sC6.params .ePoloidalA = -1 := rfl
  have hP : sC6.params .ePoloidalP = 1 := rfl
  have hZ : sC6.params .ePoloidalZ = -1 := rfl
  have hr : Real.sqrt (minPos * minPos + 0 * 0) = minPos := by
    rw [mul_zero, add_zero, Real.sqrt_mul_self minPos_pos.le]
  have h_r : ¬ minPos < Real.sqrt (minPos * minPos + 0 * 0) := by
    rw [hr]
    exact lt_irrefl minPos
  have ha0p : poloidalA0p sC6 = -1 := by
    unfold poloidalA0p
    rw [hA, hP, Real.rpow_one]
  have hc : poloidalC sC6 = 1 := by
    unfold poloidalC
    rw [hA, hZ, hP]
    norm_num
  have hrp : Real.sqrt (minPos * minPos + 0 * 0) ^ sC6.params .ePoloidalP = minPos := by
    rw [hr, hP, Real.rpow_one]
  have habs : |(2 + minPos : ℝ)| ^ sC6.params .ePoloidalP = 2 + minPos := by
    rw [hP, Real.rpow_one, abs_of_pos (by linarith [minPos_pos])]
  have ht0 : poloidalT0 sC6 minPos 0 (2 + minPos) = 1 := by
    simp only [poloidalT0]
    rw [ha0p, hc, habs, hrp]
    ring
  have ht1 : poloidalT1 sC6 minPos 0 (2 + minPos) = Real.sqrt (1 - 4 * minPos) := by
    simp only [poloidalT1]
    rw [ht0, ha0p, hrp]
    congr 1
    ring
  have hden : 0 < poloidalT1 sC6 minPos 0 (2 + minPos) + poloidalT0 sC6 minPos 0 (2 + minPos) := by
    rw [ht1, ht0]
    linarith [Real.sqrt_nonneg (1 - 4 * minPos)]
  have h_ap : poloidalAp sC6 minPos 0 (2 + minPos) < 0 := by
    simp only [poloidalAp]
    rw [ha0p, hrp]
    apply div_neg_of_neg_of_pos
    · nlinarith [minPos_pos]
    · exact hden
  exact ⟨h_ap, h_r, (claim_C6 sC6 minPos 0 (2 + minPos)).2 h_ap h_r⟩

/-! ## Behaviour on the rotation axis (x = y = 0) -/

lemma poloidalRest_axis (s : UF23State) (x y z a : ℝ) (hx : x = 0) (hy : y = 0) :
    ∃ bz, poloidalRest s x y z a = ⟨0, 0, bz⟩ := by
  subst hx hy
  simp only [poloidalRest]
  rw [show Real.sqrt ((0 : ℝ) * 0 + 0 * 0) = 0 by simp, if_pos minPos_pos]
  exact ⟨_, rfl⟩

lemma poloidal_axis (s : UF23State) (x y z : ℝ) (hx : x = 0) (hy : y = 0) :
    ∃ bz, GetPoloidalHaloField s x y z = .ok ⟨0, 0, bz⟩ := by
  subst hx hy
  simp only [GetPoloidalHaloField]
  rw [show Real.sqrt ((0 : ℝ) * 0 + 0 * 0) = 0 by simp]
  by_cases hap : poloidalAp s 0 0 z < 0
  · rw [if_pos hap, if_neg (not_lt.mpr minPos_pos.le)]
    obtain ⟨bz, hbz⟩ := poloidalRest_axis s 0 0 z 0 rfl rfl
    exact ⟨bz, by rw [hbz]⟩
  · rw [if_neg hap]
    obtain ⟨bz, hbz⟩ :=
      poloidalRest_axis s 0 0 z (poloidalAp s 0 0 z ^ (1 / s.params .ePoloidalP)) rfl rfl
    exact ⟨bz, by rw [hbz]⟩

lemma toroidal_axis (s : UF23State) (x y z : ℝ) (hx : x = 0) (hy : y = 0) :
    GetToroidalHaloField s x y z =
      ⟨0, (if 0 ≤ z then s.params .eToroidalBN else s.params .eToroidalBS) *
          (1 - Sigmoid 0 (s.params .eToroidalR) (s.params .eToroidalW)) *
          Sigmoid |z| (s.params .eDiskH) (s.params .eDiskW) *
          Real.exp (-|z| / s.params .eToroidalZ), 0⟩ := by
  subst hx hy
  simp only [GetToroidalHaloField]
  rw [show Real.sqrt ((0 : ℝ) * 0 + 0 * 0) = 0 by simp,
    if_neg (not_lt.mpr minPos_pos.le)]
  simp [CylToCart]

lemma disk_axis (s : UF23State) (pos : Vector3) (hx : pos.x = 0) (hy : pos.y = 0) :
    GetDiskField s pos = ⟨0, 0, 0⟩ := by
  unfold GetDiskField
  by_cases hm : s.modelType = .spur
  · rw [if_pos hm]
    simp only [GetSpurField]
    rw [hx, hy, show Real.sqrt ((0 : ℝ) * 0 + 0 * 0) = 0 by simp, if_pos minPos_pos]
  · rw [if_neg hm]
    simp only [GetSpiralField]
    rw [hx, hy]
    simp

lemma twisted_axis (s : UF23State) (x y z : ℝ) (hx : x = 0) (hy : y = 0) :
    ∃ bz, GetTwistedHaloField s x y z = .ok ⟨0, 0, bz⟩ := by
  subst hx hy
  obtain ⟨pz, hpol⟩ := poloidal_axis s 0 0 z rfl rfl
  refine ⟨pz, ?_⟩
  simp only [GetTwistedHaloField]
  rw [show Real.sqrt ((0 : ℝ) * 0 + 0 * 0) = 0 by simp,
    if_neg (not_lt.mpr minPos_pos.le), hpol]
  simp [CartToCyl, CylToCart]

lemma evaluate_axis (s : UF23State) (z : ℝ) (hm : s.modelType ≠ .twistX)
    (hcut : ¬ s.maxRadiusSquared < (Vector3.mk 0 0 (z * kpc)).squaredLength)
    (bphi pz : ℝ)
    (htor : GetToroidalHaloField s 0 0 (z * kpc) = ⟨0, bphi, 0⟩)
    (hpol : GetPoloidalHaloField s 0 0 (z * kpc) = .ok ⟨0, 0, pz⟩) :
    evaluate s ⟨0, 0, z⟩ = .ok ⟨0, bphi / microgauss, pz / microgauss⟩ := by
  have hscale : Vector3.mulScalar ⟨0, 0, z⟩ kpc = ⟨0, 0, z * kpc⟩ := by simp
  have hhalo : GetHaloField s ⟨0, 0, z * kpc⟩ = .ok (⟨0, bphi, 0⟩ + ⟨0, 0, pz⟩) := by
    unfold GetHaloField
    rw [if_neg hm]
    show (match GetPoloidalHaloField s 0 0 (z * kpc) with
      | Except.error e => Except.error e
      | Except.ok p => Except.ok (GetToroidalHaloField s 0 0 (z * kpc) + p)) = _
    rw [hpol, htor]
  have hdisk : GetDiskField s ⟨0, 0, z * kpc⟩ = ⟨0, 0, 0⟩ := disk_axis s _ rfl rfl
  simp only [evaluate]
  rw [hscale, if_neg hcut]
  show (match GetHaloField s ⟨0, 0, z * kpc⟩ with
    | Except.error e => Except.error e
    | Except.ok h => Except.ok ((GetDiskField s ⟨0, 0, z * kpc⟩ + h).divScalar microgauss)) = _
  rw [hhalo, hdisk]
  simp

lemma evaluate_axis_twist (s : UF23State) (z : ℝ) (hm : s.modelType = .twistX)
    (hcut : ¬ s.maxRadiusSquared < (Vector3.mk 0 0 (z * kpc)).squaredLength) :
    ∃ bz, evaluate s ⟨0, 0, z⟩ = .ok ⟨0, 0, bz⟩ := by
  have hscale : Vector3.mulScalar ⟨0, 0, z⟩ kpc = ⟨0, 0, z * kpc⟩ := by simp
  obtain ⟨bz, htw⟩ := twisted_axis s 0 0 (z * kpc) rfl rfl
  have hhalo : GetHaloField s ⟨0, 0, z * kpc⟩ = .ok ⟨0, 0, bz⟩ := by
    unfold GetHaloField
    rw [if_pos hm]
    exact htw
  have hdisk : GetDiskField s ⟨0, 0, z * kpc⟩ = ⟨0, 0, 0⟩ := disk_axis s _ rfl rfl
  refine ⟨bz / microgauss, ?_⟩
  simp only [evaluate]
  rw [hscale, if_neg hcut]
  show (match GetHaloField s ⟨0, 0, z * kpc⟩ with
    | Except.error e => Except.error e
    | Except.ok h => Except.ok ((GetDiskField s ⟨0, 0, z * kpc⟩ + h).divScalar microgauss)) = _
  rw [hhalo, hdisk]
  simp

/-- C5 (amended): for every variant, evaluating at the rotation axis
(x = y = 0) raises no error; the disk contribution is exactly zero and
the poloidal contribution is purely vertical, so the result has zero
x-component, but its y-component is the azimuthal toroidal term, which is
not zero in general (see the counterexample). -/
theorem claim_C5 (mt : ModelType) (maxRadiusInKpc z : ℝ) :
    ∃ bphi bz,
      evaluate (mkUF23Field mt maxRadiusInKpc) ⟨0, 0, z⟩ = .ok ⟨0, bphi, bz⟩
      ∧ GetDiskField (mkUF23Field mt maxRadiusInKpc) ⟨0, 0, z * kpc⟩ = ⟨0, 0, 0⟩
      ∧ ∃ pz, GetPoloidalHaloField (mkUF23Field mt maxRadiusInKpc) 0 0 (z * kpc) =
          .ok ⟨0, 0, pz⟩ := by
  set s := mkUF23Field mt maxRadiusInKpc with hs
  obtain ⟨pz, hpol⟩ := poloidal_axis s 0 0 (z * kpc) rfl rfl
  have hdisk : GetDiskField s ⟨0, 0, z * kpc⟩ = ⟨0, 0, 0⟩ := disk_axis s _ rfl rfl
  by_cases hcut : s.maxRadiusSquared < (Vector3.mk 0 0 (z * kpc)).squaredLength
  · refine ⟨0, 0, ?_, hdisk, ⟨pz, hpol⟩⟩
    simp only [evaluate]
    rw [show Vector3.mulScalar ⟨0, 0, z⟩ kpc = ⟨0, 0, z * kpc⟩ from by simp, if_pos hcut]
  · by_cases hm : s.modelType = .twistX
    · obtain ⟨bz, hev⟩ := evaluate_axis_twist s z hm hcut
      exact ⟨0, bz, hev, hdisk, ⟨pz, hpol⟩⟩
    · have htor := toroidal_axis s 0 0 (z * kpc) rfl rfl
      exact ⟨_, _, evaluate_axis s z hm hcut _ pz htor hpol, hdisk, ⟨pz, hpol⟩⟩

/-- Counterexample to C5 as stated: for the base variant at the origin the
toroidal halo contribution is not zero, so the field on the rotation axis
has a strictly positive y-component instead of being purely vertical. -/
theorem claim_C5_counterexample : 0 < evalY (mkUF23Field .base 30) ⟨0, 0, 0⟩ := by
  set s := mkUF23Field .base 30 with hs
  have hmt : s.modelType = .base := rfl
  have hm : s.modelType ≠ .twistX := by rw [hmt]; decide
  have hcut : ¬ s.maxRadiusSquared < (Vector3.mk 0 0 ((0 : ℝ) * kpc)).squaredLength := by
    rw [show s.maxRadiusSquared = ((30 : ℝ) * kpc) ^ 2 from rfl]
    simp only [Vector3.squaredLength_mk]
    unfold kpc
    norm_num
  obtain ⟨pz, hpol⟩ := poloidal_axis s 0 0 (0 * kpc) rfl rfl
  have htor := toroidal_axis s 0 0 (0 * kpc) rfl rfl
  have hev := evaluate_axis s 0 hm hcut _ pz htor hpol
  unfold evalY
  rw [hev]
  have hBN : s.params .eToroidalBN = 3.2556760e+00 * microgauss := rfl
  have hz0 : (0 : ℝ) * kpc = 0 := zero_mul kpc
  rw [hz0, if_pos le_rfl, hBN]
  apply div_pos
  · apply mul_pos
    apply mul_pos
    apply mul_pos
    · unfold microgauss
      norm_num
    · have := Sigmoid_lt_one 0 (s.params .eToroidalR) (s.params .eToroidalW)
      linarith
    · exact Sigmoid_pos _ _ _
    · exact Real.exp_pos _
  · unfold microgauss
    norm_num

/-! ## Parameter get/set round trip (C7, C8) -/

lemma idxOfEpar_lt (e : EPar) : idxOfEpar e < 26 := by cases e <;> decide

lemma eparOfIdx_idxOfEpar (e : EPar) : eparOfIdx (idxOfEpar e) = e := by
  cases e <;> rfl

lemma unitConv_ne_zero (e : EPar) : unitConvL.getD (idxOfEpar e) 0 ≠ 0 := by
  have hpi : kPi ≠ 0 := by unfold kPi; norm_num
  cases e <;>
    simp [unitConvL, idxOfEpar, microgauss, kpc, degree, megayear, hpi]

lemma getParameters_ok (s : UF23State) :
    getParameters s =
      .ok ((List.range 26).map fun i => s.params (eparOfIdx i) / unitConvL.getD i 0) := by
  unfold getParameters
  rw [if_neg (fun h : unitConvL.length ≠ 26 => h rfl)]

lemma setParameters_ok (s : UF23State) (v : List ℝ) (hlen : v.length = 26) :
    setParameters s v = .ok
      { modelType := s.modelType
        maxRadiusSquared := s.maxRadiusSquared
        params := if s.modelType = .expX then
            Function.update (setP1 v) .ePoloidalZ
              (setP1 v .ePoloidalA * Real.tan (setP1 v .ePoloidalXi))
          else setP1 v
        sinPitch := Real.sin (setP1 v .eDiskPitch)
        cosPitch := Real.cos (setP1 v .eDiskPitch)
        tanPitch := Real.tan (setP1 v .eDiskPitch) } := by
  unfold setParameters
  rw [if_neg (fun h : v.length ≠ 26 => h hlen),
    if_neg (fun h : unitConvL.length ≠ 26 => h rfl)]

/-- C7: `GetParameters` always returns exactly 26 entries; `SetParameters`
raises its size-mismatch error exactly when the new vector's length
differs from 26, and in that case the object (stored parameters and
cached trig values) is left unchanged. -/
theorem claim_C7 (s : UF23State) (v : List ℝ) :
    (∃ l, getParameters s = .ok l ∧ l.length = 26)
    ∧ ((∃ e, setParameters s v = .error e) ↔ v.length ≠ 26)
    ∧ (v.length ≠ 26 → setParametersRun s v = s) := by
  refine ⟨⟨_, getParameters_ok s, by simp⟩, ?_, ?_⟩
  · constructor
    · rintro ⟨e, he⟩ hlen
      rw [setParameters_ok s v hlen] at he
      exact absurd he (by simp)
    · intro hne
      unfold setParameters
      rw [if_pos hne]
      exact ⟨_, rfl⟩
  · intro hne
    unfold setParametersRun setParameters
    rw [if_pos hne]

/-- Witness for C7 at the base state and the empty parameter vector. -/
theorem claim_C7_witness :
    ([] : List ℝ).length ≠ 26
    ∧ setParametersRun (mkUF23Field .base 30) [] = mkUF23Field .base 30 :=
  ⟨by norm_num, (claim_C7 (mkUF23Field .base 30) []).2.2 (by norm_num)⟩

lemma inv_mk (mt : ModelType) (maxRadiusInKpc : ℝ) :
    Inv (mkUF23Field mt maxRadiusInKpc) := by
  refine ⟨rfl, rfl, rfl, ?_⟩
  intro h
  have hmt : mt = .expX := h
  subst hmt
  rfl

lemma inv_setRun (s : UF23State) (v : List ℝ) (h : Inv s) :
    Inv (setParametersRun s v) := by
  by_cases hlen : v.length = 26
  · unfold setParametersRun
    rw [setParameters_ok s v hlen]
    have hpitch : ((if s.modelType = .expX then
        Function.update (setP1 v) .ePoloidalZ
          (setP1 v .ePoloidalA * Real.tan (setP1 v .ePoloidalXi))
      else setP1 v) : EPar → ℝ) .eDiskPitch = setP1 v .eDiskPitch := by
      by_cases hexp : s.modelType = .expX
      · rw [if_pos hexp, Function.update_noteq (by decide)]
      · rw [if_neg hexp]
    have h4 : s.modelType = .expX →
        ((if s.modelType = .expX then
            Function.update (setP1 v) .ePoloidalZ
              (setP1 v .ePoloidalA * Real.tan (setP1 v .ePoloidalXi))
          else setP1 v) : EPar → ℝ) .ePoloidalZ =
        ((if s.modelType = .expX then
            Function.update (setP1 v) .ePoloidalZ
              (setP1 v .ePoloidalA * Real.tan (setP1 v .ePoloidalXi))
          else setP1 v) : EPar → ℝ) .ePoloidalA *
          Real.tan (((if s.modelType = .expX then
            Function.update (setP1 v) .ePoloidalZ
              (setP1 v .ePoloidalA * Real.tan (setP1 v .ePoloidalXi))
          else setP1 v) : EPar → ℝ) .ePoloidalXi) := by
      intro hexp
      rw [if_pos hexp, Function.update_same,
        Function.update_noteq (by decide), Function.update_noteq (by decide)]
    exact ⟨(congrArg Real.sin hpitch).symm, (congrArg Real.cos hpitch).symm,
      (congrArg Real.tan hpitch).symm, h4⟩
  · unfold setParametersRun setParameters
    rw [if_pos (fun hh => hlen hh)]
    exact h

lemma inv_reachable (s : UF23State) (h : Reachable s) : Inv s := by
  induction h with
  | construct mt r => exact inv_mk mt r
  | update t v _ ih => exact inv_setRun t v ih

lemma roundtrip_state (s : UF23State) (h : Inv s) :
    setParametersRun s (getParametersD s) = s := by
  obtain ⟨hsin, hcos, htan, hzz⟩ := h
  have hget : getParametersD s =
      (List.range 26).map fun i => s.params (eparOfIdx i) / unitConvL.getD i 0 := by
    unfold getParametersD
    rw [getParameters_ok s]
  have hlen : (getParametersD s).length = 26 := by
    rw [hget]
    simp
  have hp1 : setP1 (getParametersD s) = s.params := by
    funext e
    unfold setP1
    rw [hget, getD_map_range _ _ _ _ (idxOfEpar_lt e), eparOfIdx_idxOfEpar e]
    exact div_mul_cancel₀ _ (unitConv_ne_zero e)
  unfold setParametersRun
  rw [setParameters_ok s _ hlen]
  dsimp only [UF23State.params, UF23State.sinPitch, UF23State.cosPitch,
    UF23State.tanPitch, UF23State.modelType]
  have hp2 : (if s.modelType = .expX then
      Function.update s.params .ePoloidalZ
        (s.params .ePoloidalA * Real.tan (s.params .ePoloidalXi))
    else s.params) = s.params := by
    by_cases hexp : s.modelType = .expX
    · rw [if_pos hexp, ← hzz hexp, Function.update_eq_self]
    · rw [if_neg hexp]
  show UF23State.mk _ _ _ _ _ _ = s
  rw [hp1, hp2]
  ext <;> simp [hsin, hcos, htan]

/-- C8: on every reachable model state, reading the external-unit
parameter vector with `GetParameters` and writing it straight back with
`SetParameters` leaves the field evaluation at every position unchanged
(the get/set unit conversions compose to the identity). -/
theorem claim_C8 (s : UF23State) (hr : Reachable s) (pos : Vector3) :
    evaluate (setParametersRun s (getParametersD s)) pos = evaluate s pos := by
  rw [roundtrip_state s (inv_reachable s hr)]

/-- Witness for C8 at the freshly constructed base state and position
(1, 2, 3). -/
theorem claim_C8_witness :
    evaluate (setParametersRun (mkUF23Field .base 30)
        (getParametersD (mkUF23Field .base 30))) ⟨1, 2, 3⟩ =
      evaluate (mkUF23Field .base 30) ⟨1, 2, 3⟩ :=
  claim_C8 (mkUF23Field .base 30) (Reachable.construct .base 30) ⟨1, 2, 3⟩

end UF23
